import Mathlib

/-!
Verification development for the oxylabs-sdk-go repository (packages
`ecommerce`, `internal`, `serp`).  The Go source is shallowly embedded:
pure helpers become Lean functions, pointer-mutating default setters become
value-level functions, the `map[string]interface{}` request payload becomes
an association list of JSON values, and the scrape pipelines are modelled
up to the point where the outbound network request (`c.C.Req`) would be
issued, since no claim concerns response handling.  Go runtime panics
(failed type assertions) are modelled as an explicit outcome.
-/

/-- Dynamic values stored in a Go `map[string]interface{}` context map:
the SDK's context modifiers store strings, ints and bools. -/
inductive CtxVal : Type
  | str (s : String)
  | int (n : Int)
  | bool (b : Bool)
deriving DecidableEq, Repr

/-- `oxylabs.ContextOption`, a Go map from parameter name to dynamic value,
embedded as a lookup function. -/
def ContextOption : Type := String → Option CtxVal

/-- The empty context map (`make(oxylabs.ContextOption)`). -/
def emptyCtx : ContextOption := fun _ => none

/-- Map update `ctx[k] = v`. -/
def ctxSet (c : ContextOption) (k : String) (v : CtxVal) : ContextOption :=
  fun q => if q == k then some v else c q

/-- JSON values, used for the request payload entries. -/
inductive JVal : Type
  | null
  | bool (b : Bool)
  | int (n : Int)
  | str (s : String)
  | arr (xs : List JVal)
  | obj (fields : List (String × JVal))

/-- Conversion of a Go `interface{}` context value to its JSON value;
an absent (nil) entry serializes as JSON null. -/
def jvalOfCtx : Option CtxVal → JVal
  | none => .null
  | some (.str s) => .str s
  | some (.int n) => .int n
  | some (.bool b) => .bool b

/-- Modelled from the spec: `ParseInstructionSet` (oxylabs package, not under
src/) is a caller-supplied, recursively-validated mapping in which every
entry must name a supported extraction operator. -/
inductive ParseInstr : Type
  | opName (s : String)
  | branch (fields : List (String × ParseInstr))

/-- Modelled from the spec: the catalogue of supported extraction operators
(the spec does not enumerate them; representative names are used). -/
def SupportedExtractionOperators : List String :=
  ["xpath", "css", "regex"]

mutual

/-- Modelled from the spec: `oxylabs.ValidateParseInstructions` (not under
src/) checks recursively that every entry names a supported operator. -/
def ValidateParseInstructions : ParseInstr → Bool
  | .opName s => SupportedExtractionOperators.contains s
  | .branch fs => validateInstrFields fs

/-- Recursive check of the fields of a branch node. -/
def validateInstrFields : List (String × ParseInstr) → Bool
  | [] => true
  | (_, v) :: rest => ValidateParseInstructions v && validateInstrFields rest

end

/-- Modelled from the spec: the fixed default user-agent class
(`oxylabs.UA_DESKTOP`, not under src/). -/
def UA_DESKTOP : String := "desktop"

/-- Modelled from the spec: the supported user-agent classes of the oxylabs
package (not under src/); `IsUserAgentValid` accepts exactly these. -/
def AcceptedUserAgents : List String :=
  ["desktop", "desktop_chrome", "desktop_edge", "desktop_firefox",
   "desktop_opera", "desktop_safari", "mobile", "mobile_android",
   "mobile_ios", "tablet", "tablet_android", "tablet_ios"]

/-- Modelled from the spec: `oxylabs.IsUserAgentValid` (not under src/)
accepts exactly the supported enumerated user-agent classes. -/
def IsUserAgentValid (ua : String) : Bool :=
  AcceptedUserAgents.contains ua

/-- Modelled from the spec: the supported render modes of the oxylabs
package (not under src/). -/
def AcceptedRenders : List String := ["html", "png"]

/-- Modelled from the spec: `oxylabs.IsRenderValid` (not under src/)
accepts exactly the supported enumerated render modes. -/
def IsRenderValid (r : String) : Bool :=
  AcceptedRenders.contains r

/-- Modelled from the spec: the fixed default top-level domain
(`oxylabs.DOMAIN_COM`, not under src/). -/
def DOMAIN_COM : String := "com"

/-- Modelled from the spec: target identifier for the google shopping URL
source (`oxylabs.GoogleShoppingUrl`, not under src/). -/
def GoogleShoppingUrl : String := "google_shopping"

/-- Modelled from the spec: target identifier for the google shopping search
source (`oxylabs.GoogleShoppingSearch`, not under src/). -/
def GoogleShoppingSearch : String := "google_shopping_search"

/-- Modelled from the spec: target identifier for the google shopping product
source (`oxylabs.GoogleShoppingProduct`, not under src/). -/
def GoogleShoppingProduct : String := "google_shopping_product"

/-- Modelled from the spec: target identifier for the google shopping pricing
source (`oxylabs.GoogleShoppingPricing`, not under src/). -/
def GoogleShoppingPricing : String := "google_shopping_pricing"

/-- Modelled from the spec: `internal.InList` (not under src/), membership of
a string in a list of accepted parameters. -/
def InList (s : String) (l : List String) : Bool := l.contains s

/-- Whether the first character list starts with the second. -/
def charsStartWith : List Char → List Char → Bool
  | _, [] => true
  | [], _ :: _ => false
  | a :: as, b :: bs => a == b && charsStartWith as bs

/-- Whether the first character list contains the second as a contiguous
run. -/
def charsContain : List Char → List Char → Bool
  | [], sub => sub.isEmpty
  | c :: rest, sub => charsStartWith (c :: rest) sub || charsContain rest sub

/-- Modelled from the spec: `internal.ValidateUrl` (not under src/) accepts a
target URL only when it names the expected host. -/
def ValidateUrl (url host : String) : Bool :=
  charsContain url.toList host.toList

namespace gotime

/-- Go's `time.Second`, in nanoseconds (durations are int64 nanoseconds). -/
def Second : Nat := 1000000000

end gotime

namespace Internal

/-- `internal.DefaultUserAgent` (src/unnamed/part_000). -/
def DefaultUserAgent : String := UA_DESKTOP

/-- `internal.DefaultDomain` (src/unnamed/part_000). -/
def DefaultDomain : String := DOMAIN_COM

/-- `internal.DefaultStartPage` (src/unnamed/part_000). -/
def DefaultStartPage : Int := 1

/-- `internal.DefaultPages` (src/unnamed/part_000). -/
def DefaultPages : Int := 1

/-- `internal.DefaultLimit_SERP` (src/unnamed/part_000). -/
def DefaultLimit_SERP : Int := 10

/-- `internal.DefaultLimit_ECOMMERCE` (src/unnamed/part_000). -/
def DefaultLimit_ECOMMERCE : Int := 48

/-- `internal.SyncBaseUrl` (src/unnamed/part_000). -/
def SyncBaseUrl : String := "https://realtime.oxylabs.io/v1/queries"

/-- `internal.AsyncBaseUrl` (src/unnamed/part_000). -/
def AsyncBaseUrl : String := "https://data.oxylabs.io/v1/queries"

/-- `internal.DefaultTimeout = 50 * time.Second` (src/unnamed/part_000). -/
def DefaultTimeout : Nat := 50 * gotime.Second

/-- `internal.DefaultPollInterval = 2 * time.Second` (src/unnamed/part_000). -/
def DefaultPollInterval : Nat := 2 * gotime.Second

/-- `internal.SetDefaultDomain` (src/unnamed/part_000): the Go function
mutates through a pointer; embedded as the value it leaves in place. -/
def SetDefaultDomain (domain : String) : String :=
  if domain == "" then DOMAIN_COM else domain

/-- `internal.SetDefaultStartPage` (src/unnamed/part_000). -/
def SetDefaultStartPage (startPage : Int) : Int :=
  if startPage == 0 then 1 else startPage

/-- `internal.SetDefaultPages` (src/unnamed/part_000). -/
def SetDefaultPages (pages : Int) : Int :=
  if pages == 0 then 1 else pages

/-- `internal.SetDefaultLimit` (src/unnamed/part_000). -/
def SetDefaultLimit (limit defaultLimit : Int) : Int :=
  if limit == 0 then defaultLimit else limit

/-- `internal.SetDefaultUserAgent` (src/unnamed/part_000). -/
def SetDefaultUserAgent (userAgent : String) : String :=
  if userAgent == "" then UA_DESKTOP else userAgent

/-- `internal.SetDefaultSortBy` (src/unnamed/part_000): sets `sort_by` in the
context map to `"r"` if it is not set. -/
def SetDefaultSortBy (ctx : ContextOption) : ContextOption :=
  match ctx "sort_by" with
  | none => ctxSet ctx "sort_by" (.str "r")
  | some _ => ctx

/-- `internal.SetDefaultContentEncoding` (src/unnamed/part_000). -/
def SetDefaultContentEncoding (contentEncoding : String) : String :=
  if contentEncoding == "" then "base64" else contentEncoding

/-- `internal.ApiCredentials` (referenced from src/unnamed/part_001). -/
structure ApiCredentials where
  Username : String
  Password : String
deriving DecidableEq, Repr

/-- `internal.Client` (referenced from src/unnamed/part_001): base URL,
credentials and an HTTP transport (opaque in this embedding). -/
structure Client where
  BaseUrl : String
  ApiCredentials : ApiCredentials
  HttpClient : Unit := ()
deriving DecidableEq, Repr

end Internal

namespace Serp

/-- `serp.SerpClient` (src/unnamed/part_001). -/
structure SerpClient where
  C : Internal.Client
deriving DecidableEq, Repr

/-- `serp.Init` (src/unnamed/part_001): client for the Sync runtime model. -/
def Init (username password : String) : SerpClient :=
  { C := { BaseUrl := Internal.SyncBaseUrl
           ApiCredentials := { Username := username, Password := password }
           HttpClient := () } }

/-- `serp.SerpClientAsync` (src/unnamed/part_001). -/
structure SerpClientAsync where
  C : Internal.Client
deriving DecidableEq, Repr

/-- `serp.InitAsync` (src/unnamed/part_001): client for the Async runtime
model. -/
def InitAsync (username password : String) : SerpClientAsync :=
  { C := { BaseUrl := Internal.AsyncBaseUrl
           ApiCredentials := { Username := username, Password := password }
           HttpClient := () } }

end Serp

/-- A Go `context.Context` as far as the SDK observes it: an optional
deadline, in nanoseconds from creation (`context.WithTimeout`). -/
structure GoContext where
  timeoutNs : Option Nat := none
deriving DecidableEq, Repr

/-- `context.WithTimeout(context.Background(), d)`. -/
def contextWithTimeout (d : Nat) : GoContext := { timeoutNs := some d }

/-- Distinct validation-error sites of the ecommerce google shopping file,
one constructor per `fmt.Errorf` call, carrying the formatted value. -/
inductive ValidationError : Type
  | invalidUrl (url : String)
  | invalidUserAgent (ua : String)
  | invalidRender (r : String)
  | pagesAndStartPage
  | invalidSortBy (s : String)
  | minMaxPrices
  | invalidParseInstructions
deriving DecidableEq, Repr

/-- Outcome of a `checkParameterValidity` call: `ok` is a nil error, `err`
a returned validation error, and `panic` a Go runtime panic raised by a
failed type assertion inside the check. -/
inductive CheckOutcome : Type
  | ok
  | err (e : ValidationError)
  | panic
deriving DecidableEq, Repr

/-- Observable behaviour of one scrape call up to the outbound network
request: either a validation error is returned (no request issued), or a
runtime panic occurs, or `c.C.Req` is issued with the given context and
JSON payload, with `customParserFlag` recording whether caller-supplied
parsing instructions were attached. -/
inductive PipelineResult : Type
  | err (e : ValidationError)
  | panic
  | request (ctx : GoContext) (payload : List (String × JVal))
      (customParserFlag : Bool)

/-- Payload of a `request` outcome (empty list otherwise). -/
def payloadOf : PipelineResult → List (String × JVal)
  | .request _ p _ => p
  | _ => []

/-- Custom-parser flag of a `request` outcome (false otherwise). -/
def flagOf : PipelineResult → Bool
  | .request _ _ f => f
  | _ => false

/-- True exactly on a `request` outcome, i.e. when `c.C.Req` was issued. -/
def PipelineResult.isRequest : PipelineResult → Bool
  | .request _ _ _ => true
  | _ => false

/-- Variadic option handling shared by every scrape entry point
(`opt := &Opts{}; if len(opts) > 0 && opts[len(opts)-1] != nil
\x7b opt = opts[len(opts)-1] \x7d`). -/
def resolveOpts {α : Type} (d : α) (opts : List (Option α)) : α :=
  if h : 0 < opts.length then
    match opts.get ⟨opts.length - 1, by omega⟩ with
    | some o => o
    | none => d
  else d

/-- Key lookup in a payload association list (Go map read). -/
def lookupKey (k : String) : List (String × JVal) → Option JVal
  | [] => none
  | (k1, v) :: rest => if k1 == k then some v else lookupKey k rest

/-- Applies the caller's context-modifier functions in order to the freshly
created context map (the `for _, modifier := range opt.Context` loop). -/
def applyModifiers : List (ContextOption → ContextOption) → ContextOption → ContextOption
  | [], c => c
  | m :: ms, c => applyModifiers ms (m c)

/-- JSON form of a parse-instruction tree; a Go map has no field order, so
the embedding uses the serializer's sorted key order as the canonical
representation of the unordered map. -/
def instrToJVal : ParseInstr → JVal
  | .opName s => .str s
  | .branch fs => .obj (List.insertionSort (fun a b => a.1 ≤ b.1) (instrFields fs))
where
  /-- JSON form of the fields of a branch node. -/
  instrFields : List (String × ParseInstr) → List (String × JVal)
    | [] => []
    | (k, v) :: rest => (k, instrToJVal v) :: instrFields rest

/-- The optional `parsing_instructions` payload entry. -/
def instrField : Option ParseInstr → List (String × JVal)
  | none => []
  | some pi => [("parsing_instructions", instrToJVal pi)]

namespace Ecommerce

/-- `ecommerce.AcceptedSortByParameters` (src/ecommerce/google_shopping.go). -/
def AcceptedSortByParameters : List String := ["r", "p", "rv", "pd"]

/-- `ecommerce.GoogleShoppingUrlOpts` (src/ecommerce/google_shopping.go);
Go zero values are the field defaults. -/
structure GoogleShoppingUrlOpts where
  UserAgent : String := ""
  Render : String := ""
  CallbackUrl : String := ""
  GeoLocation : String := ""
  Parse : Bool := false
  ParseInstructions : Option ParseInstr := none
  PollInterval : Nat := 0

/-- `GoogleShoppingUrlOpts.checkParameterValidity`
(src/ecommerce/google_shopping.go lines 33-49). -/
def GoogleShoppingUrlOpts.checkParameterValidity
    (opt : GoogleShoppingUrlOpts) : CheckOutcome :=
  if !(IsUserAgentValid opt.UserAgent) then .err (.invalidUserAgent opt.UserAgent)
  else if opt.Render != "" && !(IsRenderValid opt.Render) then
    .err (.invalidRender opt.Render)
  else match opt.ParseInstructions with
    | some pi =>
        if !(ValidateParseInstructions pi) then .err .invalidParseInstructions
        else .ok
    | none => .ok

/-- `ecommerce.GoogleShoppingSearchOpts` (src/ecommerce/google_shopping.go). -/
structure GoogleShoppingSearchOpts where
  Domain : String := ""
  StartPage : Int := 0
  Pages : Int := 0
  Locale : String := ""
  ResultsLanguage : String := ""
  GeoLocation : String := ""
  UserAgent : String := ""
  Render : String := ""
  CallbackURL : String := ""
  Parse : Bool := false
  ParseInstructions : Option ParseInstr := none
  PollInterval : Nat := 0
  Context : List (ContextOption → ContextOption) := []

/-- The `sort_by` fragment of the search validity check:
`ctx["sort_by"] != nil && !internal.InList(ctx["sort_by"].(string), ...)`;
a non-string value makes the `.(string)` assertion panic. -/
def sortByCheck (ctx : ContextOption) : CheckOutcome :=
  match ctx "sort_by" with
  | none => .ok
  | some (.str s) =>
      if !(InList s AcceptedSortByParameters) then .err (.invalidSortBy s)
      else .ok
  | some _ => .panic

/-- The price fragment of the search validity check:
`(ctx["min_price"] != nil || ctx["max_price"] != nil) &&
(ctx["min_price"].(int) < 0 || ctx["max_price"].(int) < 0)`, with Go's
left-to-right short-circuit evaluation; a `.(int)` assertion on a nil or
non-int value panics. -/
def priceCheck (ctx : ContextOption) : CheckOutcome :=
  if (ctx "min_price").isSome || (ctx "max_price").isSome then
    match ctx "min_price" with
    | some (.int n) =>
        if n < 0 then .err .minMaxPrices
        else match ctx "max_price" with
          | some (.int m) => if m < 0 then .err .minMaxPrices else .ok
          | _ => .panic
    | _ => .panic
  else .ok

/-- The parse-instructions fragment shared by all validity checks. -/
def parseInstructionsCheck : Option ParseInstr → CheckOutcome
  | none => .ok
  | some pi =>
      if !(ValidateParseInstructions pi) then .err .invalidParseInstructions
      else .ok

/-- `GoogleShoppingSearchOpts.checkParameterValidity`
(src/ecommerce/google_shopping.go lines 147-176), checks in source order:
user agent, render, pages/start_page, sort_by, price bounds, parse
instructions. -/
def GoogleShoppingSearchOpts.checkParameterValidity
    (opt : GoogleShoppingSearchOpts) (ctx : ContextOption) : CheckOutcome :=
  if !(IsUserAgentValid opt.UserAgent) then .err (.invalidUserAgent opt.UserAgent)
  else if opt.Render != "" && !(IsRenderValid opt.Render) then
    .err (.invalidRender opt.Render)
  else if opt.Pages ≤ 0 ∨ opt.StartPage ≤ 0 then .err .pagesAndStartPage
  else match sortByCheck ctx with
    | .ok =>
        match priceCheck ctx with
        | .ok => parseInstructionsCheck opt.ParseInstructions
        | r => r
    | r => r

/-- `ecommerce.GoogleShoppingPricingOpts` (src/ecommerce/google_shopping.go). -/
structure GoogleShoppingPricingOpts where
  Domain : String := ""
  StartPage : Int := 0
  Pages : Int := 0
  Locale : String := ""
  ResultsLanguage : String := ""
  GeoLocation : String := ""
  UserAgent : String := ""
  Render : String := ""
  CallbackURL : String := ""
  Parse : Bool := false
  ParseInstructions : Option ParseInstr := none
  PollInterval : Nat := 0

/-- `GoogleShoppingPricingOpts.checkParameterValidity`
(src/ecommerce/google_shopping.go lines 413-433). -/
def GoogleShoppingPricingOpts.checkParameterValidity
    (opt : GoogleShoppingPricingOpts) : CheckOutcome :=
  if !(IsUserAgentValid opt.UserAgent) then .err (.invalidUserAgent opt.UserAgent)
  else if opt.Render != "" && !(IsRenderValid opt.Render) then
    .err (.invalidRender opt.Render)
  else if opt.Pages ≤ 0 ∨ opt.StartPage ≤ 0 then .err .pagesAndStartPage
  else parseInstructionsCheck opt.ParseInstructions

/-- Payload map of `ScrapeGoogleShoppingUrlCtx`
(src/ecommerce/google_shopping.go lines 91-106). -/
def googleShoppingUrlPayload (url : String) (opt : GoogleShoppingUrlOpts) :
    List (String × JVal) :=
  [("source", .str GoogleShoppingUrl),
   ("url", .str url),
   ("user_agent_type", .str opt.UserAgent),
   ("render", .str opt.Render),
   ("callback_url", .str opt.CallbackUrl),
   ("geo_location", .str opt.GeoLocation),
   ("parse", .bool opt.Parse)]
  ++ instrField opt.ParseInstructions

/-- Payload map of `ScrapeGoogleShoppingSearchCtx`
(src/ecommerce/google_shopping.go lines 223-262), `ctx` being the context
map after defaults. -/
def googleShoppingSearchPayload (query : String)
    (opt : GoogleShoppingSearchOpts) (ctx : ContextOption) :
    List (String × JVal) :=
  [("source", .str GoogleShoppingSearch),
   ("domain", .str opt.Domain),
   ("query", .str query),
   ("start_page", .int opt.StartPage),
   ("pages", .int opt.Pages),
   ("locale", .str opt.Locale),
   ("results_language", .str opt.ResultsLanguage),
   ("geo_location", .str opt.GeoLocation),
   ("user_agent_type", .str opt.UserAgent),
   ("render", .str opt.Render),
   ("callback_url", .str opt.CallbackURL),
   ("parse", .bool opt.Parse),
   ("context", .arr
     [.obj [("key", .str "nfpr"), ("value", jvalOfCtx (ctx "nfpr"))],
      .obj [("key", .str "sort_by"), ("value", jvalOfCtx (ctx "sort_by"))],
      .obj [("key", .str "min_price"), ("value", jvalOfCtx (ctx "min_price"))],
      .obj [("key", .str "max_price"), ("value", jvalOfCtx (ctx "max_price"))]])]
  ++ instrField opt.ParseInstructions

/-- Payload map of `ScrapeGoogleShoppingPricingCtx`
(src/ecommerce/google_shopping.go lines 474-494). -/
def googleShoppingPricingPayload (query : String)
    (opt : GoogleShoppingPricingOpts) : List (String × JVal) :=
  [("source", .str GoogleShoppingPricing),
   ("domain", .str opt.Domain),
   ("query", .str query),
   ("start_page", .int opt.StartPage),
   ("pages", .int opt.Pages),
   ("locale", .str opt.Locale),
   ("results_language", .str opt.ResultsLanguage),
   ("geo_location", .str opt.GeoLocation),
   ("user_agent_type", .str opt.UserAgent),
   ("render", .str opt.Render),
   ("callback_url", .str opt.CallbackURL),
   ("parse", .bool opt.Parse)]
  ++ instrField opt.ParseInstructions

/-- The option set of `ScrapeGoogleShoppingUrlCtx` after its default
setter ran (src/ecommerce/google_shopping.go line 82). -/
def urlDefaultedOpt (opt0 : GoogleShoppingUrlOpts) : GoogleShoppingUrlOpts :=
  { opt0 with UserAgent := Internal.SetDefaultUserAgent opt0.UserAgent }

/-- `ScrapeGoogleShoppingUrlCtx` (src/ecommerce/google_shopping.go lines
64-127), embedded up to the `c.C.Req` network call: validate the url,
resolve options, apply defaults, validate parameters, build the payload. -/
def ScrapeGoogleShoppingUrlCtx (gctx : GoContext) (url : String)
    (opts : List (Option GoogleShoppingUrlOpts)) : PipelineResult :=
  if !(ValidateUrl url "shopping.google") then .err (.invalidUrl url)
  else
    match (urlDefaultedOpt (resolveOpts {} opts)).checkParameterValidity with
    | .err e => .err e
    | .panic => .panic
    | .ok =>
        .request gctx
          (googleShoppingUrlPayload url (urlDefaultedOpt (resolveOpts {} opts)))
          (urlDefaultedOpt (resolveOpts {} opts)).ParseInstructions.isSome

/-- `ScrapeGoogleShoppingUrl` (src/ecommerce/google_shopping.go lines 52-60):
delegates to the Ctx variant under a fresh 50-second-deadline context. -/
def ScrapeGoogleShoppingUrl (url : String)
    (opts : List (Option GoogleShoppingUrlOpts)) : PipelineResult :=
  ScrapeGoogleShoppingUrlCtx (contextWithTimeout Internal.DefaultTimeout) url opts

/-- The option set of `ScrapeGoogleShoppingSearchCtx` after its default
setters ran (src/ecommerce/google_shopping.go lines 212-215). -/
def searchDefaultedOpt (opt0 : GoogleShoppingSearchOpts) :
    GoogleShoppingSearchOpts :=
  { opt0 with
      Pages := Internal.SetDefaultPages opt0.Pages
      Domain := Internal.SetDefaultDomain opt0.Domain
      StartPage := Internal.SetDefaultStartPage opt0.StartPage
      UserAgent := Internal.SetDefaultUserAgent opt0.UserAgent }

/-- The context map built by applying the caller's modifier functions to a
fresh map (src/ecommerce/google_shopping.go lines 204-208), before the
`sort_by` default. -/
def rawCtxMap (opt0 : GoogleShoppingSearchOpts) : ContextOption :=
  applyModifiers opt0.Context emptyCtx

/-- The context map of `ScrapeGoogleShoppingSearchCtx`: modifiers applied to
a fresh map, then the `sort_by` default
(src/ecommerce/google_shopping.go lines 204-211). -/
def searchCtxMap (opt0 : GoogleShoppingSearchOpts) : ContextOption :=
  Internal.SetDefaultSortBy (rawCtxMap opt0)

/-- `ScrapeGoogleShoppingSearchCtx` (src/ecommerce/google_shopping.go lines
193-283), embedded up to the `c.C.Req` network call: resolve options, build
the context map, apply defaults, validate, build the payload. -/
def ScrapeGoogleShoppingSearchCtx (gctx : GoContext) (query : String)
    (opts : List (Option GoogleShoppingSearchOpts)) : PipelineResult :=
  match (searchDefaultedOpt (resolveOpts {} opts)).checkParameterValidity
      (searchCtxMap (resolveOpts {} opts)) with
  | .err e => .err e
  | .panic => .panic
  | .ok =>
      .request gctx
        (googleShoppingSearchPayload query
          (searchDefaultedOpt (resolveOpts {} opts))
          (searchCtxMap (resolveOpts {} opts)))
        (searchDefaultedOpt (resolveOpts {} opts)).ParseInstructions.isSome

/-- `ScrapeGoogleShoppingSearch` (src/ecommerce/google_shopping.go lines
180-188). -/
def ScrapeGoogleShoppingSearch (query : String)
    (opts : List (Option GoogleShoppingSearchOpts)) : PipelineResult :=
  ScrapeGoogleShoppingSearchCtx (contextWithTimeout Internal.DefaultTimeout)
    query opts

/-- The option set of `ScrapeGoogleShoppingPricingCtx` after its default
setters ran (src/ecommerce/google_shopping.go lines 462-465). -/
def pricingDefaultedOpt (opt0 : GoogleShoppingPricingOpts) :
    GoogleShoppingPricingOpts :=
  { opt0 with
      Pages := Internal.SetDefaultPages opt0.Pages
      Domain := Internal.SetDefaultDomain opt0.Domain
      StartPage := Internal.SetDefaultStartPage opt0.StartPage
      UserAgent := Internal.SetDefaultUserAgent opt0.UserAgent }

/-- `ScrapeGoogleShoppingPricingCtx` (src/ecommerce/google_shopping.go lines
450-515), embedded up to the `c.C.Req` network call. -/
def ScrapeGoogleShoppingPricingCtx (gctx : GoContext) (query : String)
    (opts : List (Option GoogleShoppingPricingOpts)) : PipelineResult :=
  match (pricingDefaultedOpt (resolveOpts {} opts)).checkParameterValidity with
  | .err e => .err e
  | .panic => .panic
  | .ok =>
      .request gctx
        (googleShoppingPricingPayload query
          (pricingDefaultedOpt (resolveOpts {} opts)))
        (pricingDefaultedOpt (resolveOpts {} opts)).ParseInstructions.isSome

/-- `ScrapeGoogleShoppingPricing` (src/ecommerce/google_shopping.go lines
437-445). -/
def ScrapeGoogleShoppingPricing (query : String)
    (opts : List (Option GoogleShoppingPricingOpts)) : PipelineResult :=
  ScrapeGoogleShoppingPricingCtx (contextWithTimeout Internal.DefaultTimeout)
    query opts

end Ecommerce

/-- Ordering of payload entries by key, as Go's `json.Marshal` emits map
keys in sorted order. -/
def pairKeyLe (a b : String × JVal) : Prop := a.1 ≤ b.1

instance : DecidableRel pairKeyLe := fun a b =>
  inferInstanceAs (Decidable (a.1 ≤ b.1))

instance : IsTotal (String × JVal) pairKeyLe :=
  ⟨fun a b => le_total a.1 b.1⟩

instance : IsTrans (String × JVal) pairKeyLe :=
  ⟨fun _ _ _ h1 h2 => le_trans h1 h2⟩

/-- Sorts a map's pairs by key, the order in which `json.Marshal` writes
them. -/
def sortPairs (l : List (String × JVal)) : List (String × JVal) :=
  List.insertionSort pairKeyLe l

mutual

/-- The JSON value that `json.Marshal` followed by `json.Unmarshal` (into
`interface{}`) turns a value into: object fields come back keyed as written,
and `json.Marshal` writes map keys in sorted order; arrays and scalars are
preserved. -/
def marshalVal : JVal → JVal
  | .null => .null
  | .bool b => .bool b
  | .int n => .int n
  | .str s => .str s
  | .arr xs => .arr (marshalArr xs)
  | .obj fs => .obj (sortPairs (marshalFields fs))

/-- `marshalVal` mapped over object fields. -/
def marshalFields : List (String × JVal) → List (String × JVal)
  | [] => []
  | (k, v) :: rest => (k, marshalVal v) :: marshalFields rest

/-- `marshalVal` mapped over array elements. -/
def marshalArr : List JVal → List JVal
  | [] => []
  | v :: rest => marshalVal v :: marshalArr rest

end

/-- Top-level decoding of a marshalled payload back into its key/value
pairs (`json.Unmarshal` into a `map[string]interface{}`). -/
def unmarshalTop : JVal → List (String × JVal)
  | .obj fs => fs
  | _ => []

/-- Serializing a payload map with `json.Marshal` and decoding it back:
the composite observable of the round-trip property. -/
def goMarshalRoundTrip (m : List (String × JVal)) : List (String × JVal) :=
  unmarshalTop (marshalVal (.obj m))

theorem get_concat_last {α : Type} (xs : List α) (a : α)
    (h : (xs ++ [a]).length - 1 < (xs ++ [a]).length) :
    (xs ++ [a]).get ⟨(xs ++ [a]).length - 1, h⟩ = a := by
  induction xs with
  | nil => rfl
  | cons x xs ih =>
      have hlen : (x :: (xs ++ [a])).length - 1 = ((xs ++ [a]).length - 1) + 1 := by
        simp
      simp only [List.cons_append]
      have h2 : (xs ++ [a]).length - 1 < (xs ++ [a]).length := by simp
      have h3 : ((xs ++ [a]).length - 1) + 1 < (x :: (xs ++ [a])).length := by
        simp only [List.length_cons, List.length_append, List.length_singleton]
        omega
      calc (x :: (xs ++ [a])).get ⟨(x :: (xs ++ [a])).length - 1, by simp⟩
          = (x :: (xs ++ [a])).get ⟨((xs ++ [a]).length - 1) + 1, h3⟩ := by
            congr 1
            exact Fin.ext hlen
        _ = (xs ++ [a]).get ⟨(xs ++ [a]).length - 1, h2⟩ := rfl
        _ = a := ih h2

theorem resolveOpts_concat_some {α : Type} (d : α) (xs : List (Option α)) (o : α) :
    resolveOpts d (xs ++ [some o]) = o := by
  unfold resolveOpts
  have hlen : 0 < (xs ++ [some o]).length := by simp
  rw [dif_pos hlen]
  rw [get_concat_last xs (some o) (by omega)]

theorem resolveOpts_concat_none {α : Type} (d : α) (xs : List (Option α)) :
    resolveOpts d (xs ++ [none]) = d := by
  unfold resolveOpts
  have hlen : 0 < (xs ++ [(none : Option α)]).length := by simp
  rw [dif_pos hlen]
  rw [get_concat_last xs none (by omega)]

theorem marshalVal_jvalOfCtx (o : Option CtxVal) :
    marshalVal (jvalOfCtx o) = jvalOfCtx o := by
  cases o with
  | none => rfl
  | some v => cases v <;> rfl

theorem sortPairs_perm (l : List (String × JVal)) : (sortPairs l).Perm l :=
  List.perm_insertionSort pairKeyLe l

theorem sortPairs_sorted (l : List (String × JVal)) :
    List.Sorted pairKeyLe (sortPairs l) :=
  List.sorted_insertionSort pairKeyLe l

theorem sortPairs_idem (l : List (String × JVal)) :
    sortPairs (sortPairs l) = sortPairs l :=
  List.Sorted.insertionSort_eq (sortPairs_sorted l)

theorem marshalFields_eq_self (l : List (String × JVal))
    (h : ∀ kv ∈ l, marshalVal kv.2 = kv.2) : marshalFields l = l := by
  induction l with
  | nil => rfl
  | cons kv rest ih =>
      obtain ⟨k, v⟩ := kv
      simp only [marshalFields]
      rw [h (k, v) (by simp)]
      rw [ih (fun kv2 hkv2 => h kv2 (by simp [hkv2]))]

theorem sortPairs_keyval (a b : JVal) :
    sortPairs [("key", a), ("value", b)] = [("key", a), ("value", b)] := by
  unfold sortPairs
  simp only [List.insertionSort, List.orderedInsert]
  have h : ("key" : String) ≤ "value" := by
    rw [String.le_iff_toList_le]
    decide
  rw [if_pos (show pairKeyLe ("key", a) ("value", b) from h)]

mutual

theorem marshalVal_instr :
    ∀ pi : ParseInstr, marshalVal (instrToJVal pi) = instrToJVal pi
  | .opName s => rfl
  | .branch fs => by
      have hmem := instrFields_marshal fs
      show marshalVal (.obj (sortPairs (instrToJVal.instrFields fs)))
         = .obj (sortPairs (instrToJVal.instrFields fs))
      simp only [marshalVal]
      rw [marshalFields_eq_self _
        (fun kv hkv => hmem kv ((sortPairs_perm _).mem_iff.mp hkv))]
      rw [sortPairs_idem]

theorem instrFields_marshal :
    ∀ fs : List (String × ParseInstr),
      ∀ kv ∈ instrToJVal.instrFields fs, marshalVal kv.2 = kv.2
  | [] => by
      intro kv h
      simp [instrToJVal.instrFields] at h
  | (k, v) :: rest => by
      intro kv hkv
      simp only [instrToJVal.instrFields, List.mem_cons] at hkv
      rcases hkv with h | h
      · rw [h]
        exact marshalVal_instr v
      · exact instrFields_marshal rest kv h

end

theorem setDefaultSortBy_of_some (ctx : ContextOption) (v : CtxVal)
    (h : ctx "sort_by" = some v) :
    Internal.SetDefaultSortBy ctx "sort_by" = some v := by
  unfold Internal.SetDefaultSortBy
  rw [h]
  exact h

theorem setDefaultSortBy_of_none (ctx : ContextOption)
    (h : ctx "sort_by" = none) :
    Internal.SetDefaultSortBy ctx "sort_by" = some (.str "r") := by
  unfold Internal.SetDefaultSortBy
  rw [h]
  simp [ctxSet]

theorem setDefaultSortBy_preserve (ctx : ContextOption) (k : String)
    (hk : (k == "sort_by") = false) :
    Internal.SetDefaultSortBy ctx k = ctx k := by
  unfold Internal.SetDefaultSortBy
  cases h : ctx "sort_by" with
  | none => simp [ctxSet, hk]
  | some v => rfl

namespace Ecommerce

theorem sortByCheck_err_shape (ctx : ContextOption) (e : ValidationError)
    (h : sortByCheck ctx = .err e) : ∃ s, e = .invalidSortBy s := by
  unfold sortByCheck at h
  cases hc : ctx "sort_by" with
  | none => rw [hc] at h; exact absurd h (by simp)
  | some v =>
      rw [hc] at h
      cases v with
      | str s =>
          by_cases hl : InList s AcceptedSortByParameters <;> simp [hl] at h
          exact ⟨s, h.symm⟩
      | int n => exact absurd h (by simp)
      | bool b => exact absurd h (by simp)

theorem priceCheck_err_shape (ctx : ContextOption) (e : ValidationError)
    (h : priceCheck ctx = .err e) : e = .minMaxPrices := by
  unfold priceCheck at h
  by_cases h0 : ((ctx "min_price").isSome || (ctx "max_price").isSome) = true
  · rw [if_pos h0] at h
    cases hm : ctx "min_price" with
    | none => rw [hm] at h; exact absurd h (by simp)
    | some v =>
        rw [hm] at h
        cases v with
        | str s => exact absurd h (by simp)
        | bool b => exact absurd h (by simp)
        | int n =>
            by_cases hn : n < 0
            · simp only [if_pos hn] at h
              exact (CheckOutcome.err.injEq _ _).mp h.symm
            · simp only [if_neg hn] at h
              cases hx : ctx "max_price" with
              | none => rw [hx] at h; exact absurd h (by simp)
              | some w =>
                  rw [hx] at h
                  cases w with
                  | str s => exact absurd h (by simp)
                  | bool b => exact absurd h (by simp)
                  | int m =>
                      by_cases hm2 : m < 0
                      · simp only [if_pos hm2] at h
                        exact (CheckOutcome.err.injEq _ _).mp h.symm
                      · simp only [if_neg hm2] at h
                        exact absurd h (by simp)
  · rw [if_neg h0] at h
    exact absurd h (by simp)

theorem parseInstructionsCheck_err_shape (o : Option ParseInstr)
    (e : ValidationError) (h : parseInstructionsCheck o = .err e) :
    e = .invalidParseInstructions := by
  unfold parseInstructionsCheck at h
  cases o with
  | none => exact absurd h (by simp)
  | some pi =>
      by_cases hv : ValidateParseInstructions pi <;> simp [hv] at h
      exact h.symm

theorem searchCheck_err_of_invalid (opt : GoogleShoppingSearchOpts)
    (ctx : ContextOption)
    (h : IsUserAgentValid opt.UserAgent = false ∨
         (opt.Render ≠ "" ∧ IsRenderValid opt.Render = false) ∨
         (∃ s, ctx "sort_by" = some (.str s) ∧
               InList s AcceptedSortByParameters = false)) :
    ∃ e, opt.checkParameterValidity ctx = .err e := by
  unfold GoogleShoppingSearchOpts.checkParameterValidity
  by_cases h1 : IsUserAgentValid opt.UserAgent
  · simp only [h1, Bool.not_true, Bool.false_eq_true, if_false]
    by_cases h2 : (opt.Render != "" && !(IsRenderValid opt.Render)) = true
    · rw [if_pos h2]
      exact ⟨_, rfl⟩
    · rw [if_neg h2]
      by_cases h3 : opt.Pages ≤ 0 ∨ opt.StartPage ≤ 0
      · rw [if_pos h3]
        exact ⟨_, rfl⟩
      · rw [if_neg h3]
        rcases h with hua | ⟨hrne, hrv⟩ | ⟨s, hs, hl⟩
        · rw [h1] at hua
          exact absurd hua (by simp)
        · exfalso
          apply h2
          simp [hrv, bne_iff_ne, hrne]
        · have hsc : sortByCheck ctx = .err (.invalidSortBy s) := by
            unfold sortByCheck
            rw [hs]
            simp [hl]
          rw [hsc]
          exact ⟨_, rfl⟩
  · have h1f : IsUserAgentValid opt.UserAgent = false := by
      simpa using h1
    simp only [h1f, Bool.not_false, if_true]
    exact ⟨_, rfl⟩

theorem searchCheck_pages_imp (opt : GoogleShoppingSearchOpts)
    (ctx : ContextOption)
    (h : opt.checkParameterValidity ctx = .err .pagesAndStartPage) :
    opt.Pages ≤ 0 ∨ opt.StartPage ≤ 0 := by
  unfold GoogleShoppingSearchOpts.checkParameterValidity at h
  by_cases h1 : (!(IsUserAgentValid opt.UserAgent)) = true
  · rw [if_pos h1] at h
    exact absurd ((CheckOutcome.err.injEq _ _).mp h) (by simp)
  · rw [if_neg h1] at h
    by_cases h2 : (opt.Render != "" && !(IsRenderValid opt.Render)) = true
    · rw [if_pos h2] at h
      exact absurd ((CheckOutcome.err.injEq _ _).mp h) (by simp)
    · rw [if_neg h2] at h
      by_cases h3 : opt.Pages ≤ 0 ∨ opt.StartPage ≤ 0
      · exact h3
      · rw [if_neg h3] at h
        exfalso
        cases hsc : sortByCheck ctx with
        | ok =>
            rw [hsc] at h
            cases hpc : priceCheck ctx with
            | ok =>
                rw [hpc] at h
                have := parseInstructionsCheck_err_shape _ _ h
                simp at this
            | err e =>
                rw [hpc] at h
                simp only [] at h
                have he := priceCheck_err_shape ctx e hpc
                rw [he] at h
                exact absurd ((CheckOutcome.err.injEq _ _).mp h) (by simp)
            | panic =>
                rw [hpc] at h
                exact absurd h (by simp)
        | err e =>
            rw [hsc] at h
            simp only [] at h
            obtain ⟨s, hes⟩ := sortByCheck_err_shape ctx e hsc
            rw [hes] at h
            exact absurd ((CheckOutcome.err.injEq _ _).mp h) (by simp)
        | panic =>
            rw [hsc] at h
            exact absurd h (by simp)

theorem pricingCheck_pages_imp (opt : GoogleShoppingPricingOpts)
    (h : opt.checkParameterValidity = .err .pagesAndStartPage) :
    opt.Pages ≤ 0 ∨ opt.StartPage ≤ 0 := by
  unfold GoogleShoppingPricingOpts.checkParameterValidity at h
  by_cases h1 : (!(IsUserAgentValid opt.UserAgent)) = true
  · rw [if_pos h1] at h
    exact absurd ((CheckOutcome.err.injEq _ _).mp h) (by simp)
  · rw [if_neg h1] at h
    by_cases h2 : (opt.Render != "" && !(IsRenderValid opt.Render)) = true
    · rw [if_pos h2] at h
      exact absurd ((CheckOutcome.err.injEq _ _).mp h) (by simp)
    · rw [if_neg h2] at h
      by_cases h3 : opt.Pages ≤ 0 ∨ opt.StartPage ≤ 0
      · exact h3
      · rw [if_neg h3] at h
        have := parseInstructionsCheck_err_shape _ _ h
        simp at this

theorem resolveOpts_single {α : Type} (d : α) (o : α) :
    resolveOpts d [some o] = o :=
  resolveOpts_concat_some d [] o

theorem marshalFields_searchPayload (q : String)
    (opt : GoogleShoppingSearchOpts) (ctx : ContextOption) :
    marshalFields (googleShoppingSearchPayload q opt ctx) =
      googleShoppingSearchPayload q opt ctx := by
  unfold googleShoppingSearchPayload
  cases hpi : opt.ParseInstructions with
  | none =>
      simp only [instrField, List.append_nil]
      simp only [marshalFields, marshalVal, marshalArr, marshalVal_jvalOfCtx,
        sortPairs_keyval]
  | some pi =>
      simp only [instrField]
      simp only [List.cons_append, List.nil_append]
      simp only [marshalFields, marshalVal, marshalArr, marshalVal_jvalOfCtx,
        sortPairs_keyval, marshalVal_instr]

theorem searchPayload_keys (q : String) (opt : GoogleShoppingSearchOpts)
    (ctx : ContextOption) :
    (googleShoppingSearchPayload q opt ctx).map Prod.fst =
      ["source", "domain", "query", "start_page", "pages", "locale",
       "results_language", "geo_location", "user_agent_type", "render",
       "callback_url", "parse", "context"] ++
      (match opt.ParseInstructions with
       | some _ => ["parsing_instructions"]
       | none => []) := by
  unfold googleShoppingSearchPayload instrField
  cases opt.ParseInstructions <;> simp

theorem urlPayload_keys (url : String) (opt : GoogleShoppingUrlOpts) :
    (googleShoppingUrlPayload url opt).map Prod.fst =
      ["source", "url", "user_agent_type", "render", "callback_url",
       "geo_location", "parse"] ++
      (match opt.ParseInstructions with
       | some _ => ["parsing_instructions"]
       | none => []) := by
  unfold googleShoppingUrlPayload instrField
  cases opt.ParseInstructions <;> simp

theorem searchCtx_request_inv (gctx gctx' : GoContext) (q : String)
    (opts : List (Option GoogleShoppingSearchOpts))
    (p : List (String × JVal)) (flag : Bool)
    (h : ScrapeGoogleShoppingSearchCtx gctx q opts = .request gctx' p flag) :
    gctx' = gctx ∧
    p = googleShoppingSearchPayload q (searchDefaultedOpt (resolveOpts {} opts))
          (searchCtxMap (resolveOpts {} opts)) ∧
    flag = (searchDefaultedOpt (resolveOpts {} opts)).ParseInstructions.isSome := by
  unfold ScrapeGoogleShoppingSearchCtx at h
  cases hc : (searchDefaultedOpt (resolveOpts {} opts)).checkParameterValidity
      (searchCtxMap (resolveOpts {} opts)) with
  | ok =>
      rw [hc] at h
      simp only [PipelineResult.request.injEq] at h
      exact ⟨h.1.symm, h.2.1.symm, h.2.2.symm⟩
  | err e => rw [hc] at h; exact absurd h (by simp)
  | panic => rw [hc] at h; exact absurd h (by simp)

theorem urlCtx_request_inv (gctx gctx' : GoContext) (url : String)
    (opts : List (Option GoogleShoppingUrlOpts))
    (p : List (String × JVal)) (flag : Bool)
    (h : ScrapeGoogleShoppingUrlCtx gctx url opts = .request gctx' p flag) :
    gctx' = gctx ∧
    p = googleShoppingUrlPayload url (urlDefaultedOpt (resolveOpts {} opts)) ∧
    flag = (urlDefaultedOpt (resolveOpts {} opts)).ParseInstructions.isSome := by
  unfold ScrapeGoogleShoppingUrlCtx at h
  by_cases hu : (!(ValidateUrl url "shopping.google")) = true
  · rw [if_pos hu] at h
    exact absurd h (by simp)
  · rw [if_neg hu] at h
    cases hc : (urlDefaultedOpt (resolveOpts {} opts)).checkParameterValidity with
    | ok =>
        rw [hc] at h
        simp only [PipelineResult.request.injEq] at h
        exact ⟨h.1.symm, h.2.1.symm, h.2.2.symm⟩
    | err e => rw [hc] at h; exact absurd h (by simp)
    | panic => rw [hc] at h; exact absurd h (by simp)

end Ecommerce

/-- Claim C6: client construction fixes the execution model. `Init` returns a
client whose `BaseUrl` is the synchronous endpoint constant
`https://realtime.oxylabs.io/v1/queries` and `InitAsync` one whose `BaseUrl`
is the asynchronous endpoint constant `https://data.oxylabs.io/v1/queries`;
both wrap the same `Internal.Client` shape and store the given username and
password in `ApiCredentials`.  (In this functional embedding the constructed
configuration value is immutable by construction.) -/
theorem C6_client_construction :
    Internal.SyncBaseUrl = "https://realtime.oxylabs.io/v1/queries" ∧
    Internal.AsyncBaseUrl = "https://data.oxylabs.io/v1/queries" ∧
    ∀ username password : String,
      (Serp.Init username password).C.BaseUrl = Internal.SyncBaseUrl ∧
      (Serp.InitAsync username password).C.BaseUrl = Internal.AsyncBaseUrl ∧
      (Serp.Init username password).C.ApiCredentials =
        { Username := username, Password := password } ∧
      (Serp.InitAsync username password).C.ApiCredentials =
        { Username := username, Password := password } :=
  ⟨rfl, rfl, fun _ _ => ⟨rfl, rfl, rfl, rfl⟩⟩

/-- Claim C7: the default poll interval is 2 seconds
(`DefaultPollInterval = 2 * time.Second`), the default overall deadline is 50
seconds (`DefaultTimeout = 50 * time.Second`), and every context-free entry
point of the google shopping file delegates to its Ctx variant under a
context carrying exactly the 50-second deadline. -/
theorem C7_default_timing :
    Internal.DefaultPollInterval = 2 * gotime.Second ∧
    Internal.DefaultTimeout = 50 * gotime.Second ∧
    (∀ url opts, Ecommerce.ScrapeGoogleShoppingUrl url opts =
      Ecommerce.ScrapeGoogleShoppingUrlCtx
        (contextWithTimeout Internal.DefaultTimeout) url opts) ∧
    (∀ q opts, Ecommerce.ScrapeGoogleShoppingSearch q opts =
      Ecommerce.ScrapeGoogleShoppingSearchCtx
        (contextWithTimeout Internal.DefaultTimeout) q opts) ∧
    (∀ q opts, Ecommerce.ScrapeGoogleShoppingPricing q opts =
      Ecommerce.ScrapeGoogleShoppingPricingCtx
        (contextWithTimeout Internal.DefaultTimeout) q opts) :=
  ⟨rfl, rfl, fun _ _ => rfl, fun _ _ => rfl, fun _ _ => rfl⟩

/-- Claim C8: only the last element of the variadic `opts` slice is
consulted: a non-empty slice with a non-nil last element resolves to that
element regardless of the earlier elements, while an empty slice or a nil
last element resolves to the zero-valued option struct; consequently the
search and url scrape entry points ignore every option set before the last. -/
theorem C8_last_option_wins :
    (∀ (xs : List (Option Ecommerce.GoogleShoppingSearchOpts))
       (o : Ecommerce.GoogleShoppingSearchOpts),
        resolveOpts {} (xs ++ [some o]) = o) ∧
    (∀ xs : List (Option Ecommerce.GoogleShoppingSearchOpts),
        resolveOpts ({} : Ecommerce.GoogleShoppingSearchOpts) (xs ++ [none]) =
          {}) ∧
    resolveOpts ({} : Ecommerce.GoogleShoppingSearchOpts) [] = {} ∧
    (∀ gctx q xs o, Ecommerce.ScrapeGoogleShoppingSearchCtx gctx q
        (xs ++ [some o]) =
      Ecommerce.ScrapeGoogleShoppingSearchCtx gctx q [some o]) ∧
    (∀ gctx url xs o, Ecommerce.ScrapeGoogleShoppingUrlCtx gctx url
        (xs ++ [some o]) =
      Ecommerce.ScrapeGoogleShoppingUrlCtx gctx url [some o]) := by
  refine ⟨fun xs o => resolveOpts_concat_some {} xs o,
          fun xs => resolveOpts_concat_none {} xs,
          rfl, ?_, ?_⟩
  · intro gctx q xs o
    simp only [Ecommerce.ScrapeGoogleShoppingSearchCtx,
      resolveOpts_concat_some, Ecommerce.resolveOpts_single]
  · intro gctx url xs o
    simp only [Ecommerce.ScrapeGoogleShoppingUrlCtx,
      resolveOpts_concat_some, Ecommerce.resolveOpts_single]

theorem setDefaultPages_pos (p : Int) (h : 0 ≤ p) :
    0 < Internal.SetDefaultPages p := by
  unfold Internal.SetDefaultPages
  by_cases h0 : p = 0
  · simp [h0]
  · have : (p == 0) = false := by
      simpa using h0
    rw [this]
    simp only [Bool.false_eq_true, if_false]
    omega

theorem setDefaultStartPage_pos (p : Int) (h : 0 ≤ p) :
    0 < Internal.SetDefaultStartPage p := by
  unfold Internal.SetDefaultStartPage
  by_cases h0 : p = 0
  · simp [h0]
  · have : (p == 0) = false := by
      simpa using h0
    rw [this]
    simp only [Bool.false_eq_true, if_false]
    omega

/-- Claim C3: every optional field left unset (zero-valued) receives its
documented default: user agent `""` becomes the desktop class, domain `""`
becomes the default top-level domain, start page 0 becomes 1, pages 0
becomes 1, result limit 0 becomes the target-class default (10 for SERP, 48
for e-commerce), content encoding `""` becomes `"base64"`; already-set
fields are left unchanged by every default setter; and in the final payload
of a zero-option search call the defaulted values appear. -/
theorem C3_defaults_applied :
    Internal.SetDefaultUserAgent "" = UA_DESKTOP ∧
    (∀ ua, ua ≠ "" → Internal.SetDefaultUserAgent ua = ua) ∧
    Internal.SetDefaultDomain "" = DOMAIN_COM ∧
    (∀ d, d ≠ "" → Internal.SetDefaultDomain d = d) ∧
    Internal.SetDefaultStartPage 0 = 1 ∧
    (∀ n : Int, n ≠ 0 → Internal.SetDefaultStartPage n = n) ∧
    Internal.SetDefaultPages 0 = 1 ∧
    (∀ n : Int, n ≠ 0 → Internal.SetDefaultPages n = n) ∧
    Internal.SetDefaultLimit 0 Internal.DefaultLimit_SERP = 10 ∧
    Internal.SetDefaultLimit 0 Internal.DefaultLimit_ECOMMERCE = 48 ∧
    (∀ n d : Int, n ≠ 0 → Internal.SetDefaultLimit n d = n) ∧
    Internal.SetDefaultContentEncoding "" = "base64" ∧
    (∀ s, s ≠ "" → Internal.SetDefaultContentEncoding s = s) ∧
    (∀ gctx q, ∃ p flag,
      Ecommerce.ScrapeGoogleShoppingSearchCtx gctx q [] =
        .request gctx p flag ∧
      lookupKey "user_agent_type" p = some (.str UA_DESKTOP) ∧
      lookupKey "domain" p = some (.str DOMAIN_COM) ∧
      lookupKey "start_page" p = some (.int 1) ∧
      lookupKey "pages" p = some (.int 1)) := by
  refine ⟨rfl, ?_, rfl, ?_, rfl, ?_, rfl, ?_, rfl, rfl, ?_, rfl, ?_, ?_⟩
  · intro ua h
    unfold Internal.SetDefaultUserAgent
    rw [show (ua == "") = false by simpa using h]
    rfl
  · intro d h
    unfold Internal.SetDefaultDomain
    rw [show (d == "") = false by simpa using h]
    rfl
  · intro n h
    unfold Internal.SetDefaultStartPage
    rw [show (n == 0) = false by simpa using h]
    rfl
  · intro n h
    unfold Internal.SetDefaultPages
    rw [show (n == 0) = false by simpa using h]
    rfl
  · intro n d h
    unfold Internal.SetDefaultLimit
    rw [show (n == 0) = false by simpa using h]
    rfl
  · intro s h
    unfold Internal.SetDefaultContentEncoding
    rw [show (s == "") = false by simpa using h]
    rfl
  · intro gctx q
    exact ⟨_, _, rfl, rfl, rfl, rfl, rfl⟩

/-- Witness for C3: the already-set branches of every default setter at
concrete non-zero inputs, obtained by applying `C3_defaults_applied`. -/
theorem C3_defaults_applied_witness :
    Internal.SetDefaultUserAgent "mobile" = "mobile" ∧
    Internal.SetDefaultDomain "io" = "io" ∧
    Internal.SetDefaultStartPage 3 = 3 ∧
    Internal.SetDefaultPages 5 = 5 ∧
    Internal.SetDefaultLimit 7 Internal.DefaultLimit_SERP = 7 ∧
    Internal.SetDefaultContentEncoding "utf8" = "utf8" := by
  obtain ⟨-, h2, -, h4, -, h6, -, h8, -, -, h11, -, h13, -⟩ :=
    C3_defaults_applied
  exact ⟨h2 "mobile" (by decide), h4 "io" (by decide), h6 3 (by decide),
         h8 5 (by decide), h11 7 Internal.DefaultLimit_SERP (by decide),
         h13 "utf8" (by decide)⟩

/-- Claim C9: a zero value for `Pages` or `StartPage` is never rejected by
`ScrapeGoogleShoppingSearchCtx` or `ScrapeGoogleShoppingPricingCtx`: the
defaults run before validation, so whenever the caller supplies non-negative
values the "greater than 0" error cannot occur, and a call with zeros is
indistinguishable from the same call with ones. -/
theorem C9_zero_pages_never_rejected (gctx : GoContext) (q : String)
    (sOpt : Ecommerce.GoogleShoppingSearchOpts)
    (pOpt : Ecommerce.GoogleShoppingPricingOpts)
    (hsp : 0 ≤ sOpt.Pages) (hss : 0 ≤ sOpt.StartPage)
    (hpp : 0 ≤ pOpt.Pages) (hps : 0 ≤ pOpt.StartPage) :
    Ecommerce.ScrapeGoogleShoppingSearchCtx gctx q [some sOpt] ≠
      .err .pagesAndStartPage ∧
    Ecommerce.ScrapeGoogleShoppingPricingCtx gctx q [some pOpt] ≠
      .err .pagesAndStartPage ∧
    Ecommerce.ScrapeGoogleShoppingSearchCtx gctx q
        [some { sOpt with Pages := 0, StartPage := 0 }] =
      Ecommerce.ScrapeGoogleShoppingSearchCtx gctx q
        [some { sOpt with Pages := 1, StartPage := 1 }] := by
  refine ⟨?_, ?_, rfl⟩
  · intro h
    unfold Ecommerce.ScrapeGoogleShoppingSearchCtx at h
    rw [Ecommerce.resolveOpts_single] at h
    cases hc : (Ecommerce.searchDefaultedOpt sOpt).checkParameterValidity
        (Ecommerce.searchCtxMap sOpt) with
    | ok => rw [hc] at h; exact absurd h (by simp)
    | panic => rw [hc] at h; exact absurd h (by simp)
    | err e =>
        rw [hc] at h
        have he : e = .pagesAndStartPage := (PipelineResult.err.injEq _ _).mp h
        rw [he] at hc
        have himp := Ecommerce.searchCheck_pages_imp _ _ hc
        have hp := setDefaultPages_pos sOpt.Pages hsp
        have hs := setDefaultStartPage_pos sOpt.StartPage hss
        simp only [Ecommerce.searchDefaultedOpt] at himp
        rcases himp with h1 | h1 <;> omega
  · intro h
    unfold Ecommerce.ScrapeGoogleShoppingPricingCtx at h
    rw [Ecommerce.resolveOpts_single] at h
    cases hc : (Ecommerce.pricingDefaultedOpt pOpt).checkParameterValidity with
    | ok => rw [hc] at h; exact absurd h (by simp)
    | panic => rw [hc] at h; exact absurd h (by simp)
    | err e =>
        rw [hc] at h
        have he : e = .pagesAndStartPage := (PipelineResult.err.injEq _ _).mp h
        rw [he] at hc
        have himp := Ecommerce.pricingCheck_pages_imp _ hc
        have hp := setDefaultPages_pos pOpt.Pages hpp
        have hs := setDefaultStartPage_pos pOpt.StartPage hps
        simp only [Ecommerce.pricingDefaultedOpt] at himp
        rcases himp with h1 | h1 <;> omega

/-- Witness for C9 at zero option sets (pages and start page both 0). -/
theorem C9_zero_pages_never_rejected_witness :
    Ecommerce.ScrapeGoogleShoppingSearchCtx {} "q"
      [some ({} : Ecommerce.GoogleShoppingSearchOpts)] ≠
      .err .pagesAndStartPage ∧
    Ecommerce.ScrapeGoogleShoppingPricingCtx {} "q"
      [some ({} : Ecommerce.GoogleShoppingPricingOpts)] ≠
      .err .pagesAndStartPage := by
  have h := C9_zero_pages_never_rejected {} "q" {} {}
    (by decide) (by decide) (by decide) (by decide)
  exact ⟨h.1, h.2.1⟩

/-- Claim C4: for every valid call to `ScrapeGoogleShoppingUrlCtx` the
request payload contains exactly the common keys `source` (equal to the
google shopping target identifier), `url`, `user_agent_type`, `render`,
`callback_url`, `geo_location` and `parse`, and it contains
`parsing_instructions` if and only if the caller supplied non-nil
`ParseInstructions`, in which case `customParserFlag` is true. -/
theorem C4_url_payload_keys (gctx : GoContext) (url : String)
    (opts : List (Option Ecommerce.GoogleShoppingUrlOpts))
    (p : List (String × JVal)) (flag : Bool)
    (h : Ecommerce.ScrapeGoogleShoppingUrlCtx gctx url opts =
      .request gctx p flag) :
    lookupKey "source" p = some (.str GoogleShoppingUrl) ∧
    p.map Prod.fst =
      ["source", "url", "user_agent_type", "render", "callback_url",
       "geo_location", "parse"] ++
      (if (resolveOpts {} opts).ParseInstructions.isSome then
        ["parsing_instructions"] else []) ∧
    (("parsing_instructions" ∈ p.map Prod.fst) ↔
      (resolveOpts ({} : Ecommerce.GoogleShoppingUrlOpts)
        opts).ParseInstructions.isSome = true) ∧
    flag = (resolveOpts ({} : Ecommerce.GoogleShoppingUrlOpts)
        opts).ParseInstructions.isSome := by
  obtain ⟨-, hp, hf⟩ := Ecommerce.urlCtx_request_inv gctx gctx url opts p flag h
  have hpi : (Ecommerce.urlDefaultedOpt
      (resolveOpts {} opts)).ParseInstructions =
      (resolveOpts ({} : Ecommerce.GoogleShoppingUrlOpts)
        opts).ParseInstructions := rfl
  subst hp
  rw [hf, Ecommerce.urlPayload_keys, hpi]
  cases hx : (resolveOpts ({} : Ecommerce.GoogleShoppingUrlOpts)
      opts).ParseInstructions with
  | none => exact ⟨rfl, by simp, by simp, rfl⟩
  | some pi => exact ⟨rfl, by simp, by simp, rfl⟩

/-- Witness for C4: a valid url call without parse instructions has exactly
the seven common keys and a false flag; one with (valid) parse instructions
additionally has `parsing_instructions` and a true flag. -/
theorem C4_url_payload_keys_witness :
    (payloadOf (Ecommerce.ScrapeGoogleShoppingUrlCtx {}
        "https://shopping.google.com/item" [])).map Prod.fst =
      ["source", "url", "user_agent_type", "render", "callback_url",
       "geo_location", "parse"] ∧
    flagOf (Ecommerce.ScrapeGoogleShoppingUrlCtx {}
        "https://shopping.google.com/item" []) = false ∧
    ("parsing_instructions" ∈
      (payloadOf (Ecommerce.ScrapeGoogleShoppingUrlCtx {}
        "https://shopping.google.com/item"
        [some { ParseInstructions := some (.opName "xpath") }])).map
        Prod.fst) ∧
    flagOf (Ecommerce.ScrapeGoogleShoppingUrlCtx {}
        "https://shopping.google.com/item"
        [some { ParseInstructions := some (.opName "xpath") }]) = true := by
  have h1 := C4_url_payload_keys {} "https://shopping.google.com/item" []
    (payloadOf (Ecommerce.ScrapeGoogleShoppingUrlCtx {}
      "https://shopping.google.com/item" []))
    (flagOf (Ecommerce.ScrapeGoogleShoppingUrlCtx {}
      "https://shopping.google.com/item" [])) (by rfl)
  have h2 := C4_url_payload_keys {} "https://shopping.google.com/item"
    [some { ParseInstructions := some (.opName "xpath") }]
    (payloadOf (Ecommerce.ScrapeGoogleShoppingUrlCtx {}
      "https://shopping.google.com/item"
      [some { ParseInstructions := some (.opName "xpath") }]))
    (flagOf (Ecommerce.ScrapeGoogleShoppingUrlCtx {}
      "https://shopping.google.com/item"
      [some { ParseInstructions := some (.opName "xpath") }])) (by rfl)
  refine ⟨?_, ?_, ?_, ?_⟩
  · rw [h1.2.1]
    rfl
  · rw [h1.2.2.2]
    rfl
  · exact h2.2.2.1.mpr rfl
  · rw [h2.2.2.2]
    rfl

theorem lookupKey_context_searchPayload (q : String)
    (opt : Ecommerce.GoogleShoppingSearchOpts) (ctx : ContextOption) :
    lookupKey "context" (Ecommerce.googleShoppingSearchPayload q opt ctx) =
      some (.arr
        [.obj [("key", .str "nfpr"), ("value", jvalOfCtx (ctx "nfpr"))],
         .obj [("key", .str "sort_by"), ("value", jvalOfCtx (ctx "sort_by"))],
         .obj [("key", .str "min_price"),
               ("value", jvalOfCtx (ctx "min_price"))],
         .obj [("key", .str "max_price"),
               ("value", jvalOfCtx (ctx "max_price"))]]) := by
  rfl

/-- Claim C10: for every valid search call the payload's `context` field is a
list of exactly four key/value pairs in the fixed order `nfpr`, `sort_by`,
`min_price`, `max_price`; `sort_by` is defaulted to `"r"` when the caller's
context modifiers did not set it, while `nfpr`, `min_price` and `max_price`
appear with a null value when unset. -/
theorem C10_context_field (gctx : GoContext) (q : String)
    (opts : List (Option Ecommerce.GoogleShoppingSearchOpts))
    (p : List (String × JVal)) (flag : Bool)
    (h : Ecommerce.ScrapeGoogleShoppingSearchCtx gctx q opts =
      .request gctx p flag) :
    lookupKey "context" p = some (.arr
      [.obj [("key", .str "nfpr"),
             ("value", jvalOfCtx (Ecommerce.rawCtxMap (resolveOpts {} opts)
               "nfpr"))],
       .obj [("key", .str "sort_by"),
             ("value",
              if Ecommerce.rawCtxMap (resolveOpts {} opts) "sort_by" = none
              then .str "r"
              else jvalOfCtx (Ecommerce.rawCtxMap (resolveOpts {} opts)
                "sort_by"))],
       .obj [("key", .str "min_price"),
             ("value", jvalOfCtx (Ecommerce.rawCtxMap (resolveOpts {} opts)
               "min_price"))],
       .obj [("key", .str "max_price"),
             ("value", jvalOfCtx (Ecommerce.rawCtxMap (resolveOpts {} opts)
               "max_price"))]]) ∧
    (Ecommerce.rawCtxMap (resolveOpts {} opts) "nfpr" = none →
      jvalOfCtx (Ecommerce.rawCtxMap (resolveOpts {} opts) "nfpr") = .null) ∧
    (Ecommerce.rawCtxMap (resolveOpts {} opts) "min_price" = none →
      jvalOfCtx (Ecommerce.rawCtxMap (resolveOpts {} opts) "min_price") =
        .null) ∧
    (Ecommerce.rawCtxMap (resolveOpts {} opts) "max_price" = none →
      jvalOfCtx (Ecommerce.rawCtxMap (resolveOpts {} opts) "max_price") =
        .null) := by
  obtain ⟨-, hp, -⟩ :=
    Ecommerce.searchCtx_request_inv gctx gctx q opts p flag h
  subst hp
  refine ⟨?_, fun hn => by rw [hn]; rfl, fun hn => by rw [hn]; rfl,
          fun hn => by rw [hn]; rfl⟩
  rw [lookupKey_context_searchPayload]
  have hn := setDefaultSortBy_preserve
    (Ecommerce.rawCtxMap (resolveOpts {} opts)) "nfpr" rfl
  have hmin := setDefaultSortBy_preserve
    (Ecommerce.rawCtxMap (resolveOpts {} opts)) "min_price" rfl
  have hmax := setDefaultSortBy_preserve
    (Ecommerce.rawCtxMap (resolveOpts {} opts)) "max_price" rfl
  simp only [Ecommerce.searchCtxMap, hn, hmin, hmax]
  cases hs : Ecommerce.rawCtxMap (resolveOpts {} opts) "sort_by" with
  | none =>
      rw [setDefaultSortBy_of_none _ hs]
      simp only [hs, if_pos]
      rfl
  | some v =>
      rw [setDefaultSortBy_of_some _ _ hs]
      simp [hs]

/-- Witness for C10: a search call with no context modifiers yields the four
fixed context entries with `sort_by = "r"` and the rest null. -/
theorem C10_context_field_witness :
    lookupKey "context"
      (payloadOf (Ecommerce.ScrapeGoogleShoppingSearchCtx {} "q" [])) =
      some (.arr
        [.obj [("key", .str "nfpr"), ("value", .null)],
         .obj [("key", .str "sort_by"), ("value", .str "r")],
         .obj [("key", .str "min_price"), ("value", .null)],
         .obj [("key", .str "max_price"), ("value", .null)]]) := by
  have h := C10_context_field {} "q" []
    (payloadOf (Ecommerce.ScrapeGoogleShoppingSearchCtx {} "q" []))
    (flagOf (Ecommerce.ScrapeGoogleShoppingSearchCtx {} "q" [])) (by rfl)
  rw [h.1]
  rfl

/-- Claim C5: for every option set accepted by the search validation, the
payload map survives a `json.Marshal`/`json.Unmarshal` round trip: the
decoded pairs are a permutation of the constructed pairs (no key or value
lost, none added), and the constructed payload has no duplicate keys. -/
theorem C5_payload_roundtrip (gctx : GoContext) (q : String)
    (opts : List (Option Ecommerce.GoogleShoppingSearchOpts))
    (p : List (String × JVal)) (flag : Bool)
    (h : Ecommerce.ScrapeGoogleShoppingSearchCtx gctx q opts =
      .request gctx p flag) :
    (goMarshalRoundTrip p).Perm p ∧ (p.map Prod.fst).Nodup := by
  obtain ⟨-, hp, -⟩ :=
    Ecommerce.searchCtx_request_inv gctx gctx q opts p flag h
  subst hp
  constructor
  · show unmarshalTop (marshalVal (.obj _)) |>.Perm _
    simp only [goMarshalRoundTrip, marshalVal, unmarshalTop]
    rw [Ecommerce.marshalFields_searchPayload]
    exact sortPairs_perm _
  · rw [Ecommerce.searchPayload_keys]
    cases (Ecommerce.searchDefaultedOpt
        (resolveOpts {} opts)).ParseInstructions with
    | none => decide
    | some pi =>
        have hred : (match (some pi : Option ParseInstr) with
          | some _ => ["parsing_instructions"]
          | none => ([] : List String)) = ["parsing_instructions"] := rfl
        rw [hred]
        decide

/-- Witness for C5 at the zero option set. -/
theorem C5_payload_roundtrip_witness :
    (goMarshalRoundTrip
      (payloadOf (Ecommerce.ScrapeGoogleShoppingSearchCtx {} "q" []))).Perm
      (payloadOf (Ecommerce.ScrapeGoogleShoppingSearchCtx {} "q" [])) ∧
    ((payloadOf (Ecommerce.ScrapeGoogleShoppingSearchCtx {} "q" [])).map
      Prod.fst).Nodup :=
  C5_payload_roundtrip {} "q" []
    (payloadOf (Ecommerce.ScrapeGoogleShoppingSearchCtx {} "q" []))
    (flagOf (Ecommerce.ScrapeGoogleShoppingSearchCtx {} "q" [])) (by rfl)

/-- Counterexample to claim C1 as stated: the zero-valued option set carries
user agent `""`, which `IsUserAgentValid` does not accept, yet the call is
not rejected — the user-agent default runs before validation, so the
network request is issued. -/
theorem C1_counterexample :
    IsUserAgentValid
      (resolveOpts ({} : Ecommerce.GoogleShoppingSearchOpts)
        [some {}]).UserAgent = false ∧
    (Ecommerce.ScrapeGoogleShoppingSearchCtx {} "q" [some {}]).isRequest =
      true :=
  ⟨by rfl, by rfl⟩

/-- Claim C1 (amended): for every call to `ScrapeGoogleShoppingSearchCtx`
whose effective options contain a non-empty user agent not accepted by
`IsUserAgentValid`, a non-empty render mode not accepted by `IsRenderValid`,
or a `sort_by` context string outside `AcceptedSortByParameters`, the call
returns a validation error and no network request (`c.C.Req`) is issued. -/
theorem C1_invalid_enum_rejected (gctx : GoContext) (q : String)
    (opts : List (Option Ecommerce.GoogleShoppingSearchOpts))
    (h : ((resolveOpts ({} : Ecommerce.GoogleShoppingSearchOpts)
             opts).UserAgent ≠ "" ∧
          IsUserAgentValid (resolveOpts
            ({} : Ecommerce.GoogleShoppingSearchOpts) opts).UserAgent =
            false) ∨
         ((resolveOpts ({} : Ecommerce.GoogleShoppingSearchOpts)
             opts).Render ≠ "" ∧
          IsRenderValid (resolveOpts
            ({} : Ecommerce.GoogleShoppingSearchOpts) opts).Render = false) ∨
         (∃ s, Ecommerce.rawCtxMap (resolveOpts {} opts) "sort_by" =
             some (.str s) ∧
           InList s Ecommerce.AcceptedSortByParameters = false)) :
    (∃ e, Ecommerce.ScrapeGoogleShoppingSearchCtx gctx q opts = .err e) ∧
    (Ecommerce.ScrapeGoogleShoppingSearchCtx gctx q opts).isRequest =
      false := by
  have hch : ∃ e, (Ecommerce.searchDefaultedOpt
      (resolveOpts {} opts)).checkParameterValidity
      (Ecommerce.searchCtxMap (resolveOpts {} opts)) = .err e := by
    apply Ecommerce.searchCheck_err_of_invalid
    rcases h with ⟨hne, hua⟩ | ⟨hne, hrv⟩ | ⟨s, hs, hl⟩
    · left
      have hEq : (Ecommerce.searchDefaultedOpt
          (resolveOpts {} opts)).UserAgent =
          (resolveOpts ({} : Ecommerce.GoogleShoppingSearchOpts)
            opts).UserAgent := by
        show Internal.SetDefaultUserAgent _ = _
        unfold Internal.SetDefaultUserAgent
        rw [show ((resolveOpts ({} : Ecommerce.GoogleShoppingSearchOpts)
          opts).UserAgent == "") = false by simpa using hne]
        rfl
      rw [hEq]
      exact hua
    · right
      left
      exact ⟨hne, hrv⟩
    · right
      right
      exact ⟨s, setDefaultSortBy_of_some _ _ hs, hl⟩
  obtain ⟨e, he⟩ := hch
  constructor
  · refine ⟨e, ?_⟩
    unfold Ecommerce.ScrapeGoogleShoppingSearchCtx
    rw [he]
  · unfold PipelineResult.isRequest Ecommerce.ScrapeGoogleShoppingSearchCtx
    rw [he]

/-- Witness for C1 at a concrete unsupported user agent. -/
theorem C1_invalid_enum_rejected_witness :
    (∃ e, Ecommerce.ScrapeGoogleShoppingSearchCtx {} "q"
      [some { UserAgent := "robot" }] = .err e) ∧
    (Ecommerce.ScrapeGoogleShoppingSearchCtx {} "q"
      [some { UserAgent := "robot" }]).isRequest = false :=
  C1_invalid_enum_rejected {} "q" [some { UserAgent := "robot" }]
    (Or.inl ⟨by decide, by rfl⟩)

/-- Counterexample to claim C2 as stated: supplying only `max_price` makes
the price condition hit the nil `.(int)` type assertion on the absent
`min_price`, a runtime panic rather than nil or a validation error — both at
the level of the check fragment and of the whole search call. -/
theorem C2_counterexample :
    Ecommerce.priceCheck (ctxSet emptyCtx "max_price" (.int 5)) = .panic ∧
    Ecommerce.ScrapeGoogleShoppingSearchCtx {} "q"
      [some { Context := [fun c => ctxSet c "max_price" (.int 5)] }] =
      .panic :=
  ⟨by rfl, by rfl⟩

/-- Claim C2 (amended): the price condition of the search validity check is
total on context option sets that supply both price bounds as ints or
neither: it evaluates to nil or to the price validation error, and the nil
type assertion never fails there. -/
theorem C2_price_check_balanced (ctx : ContextOption)
    (h : (ctx "min_price" = none ∧ ctx "max_price" = none) ∨
         (∃ n m : Int, ctx "min_price" = some (.int n) ∧
                       ctx "max_price" = some (.int m))) :
    Ecommerce.priceCheck ctx = .ok ∨
    Ecommerce.priceCheck ctx = .err .minMaxPrices := by
  unfold Ecommerce.priceCheck
  rcases h with ⟨hn, hm⟩ | ⟨n, m, hn, hm⟩
  · left
    rw [hn, hm]
    rfl
  · rw [hn, hm]
    by_cases hlt : n < 0
    · right
      simp [hlt]
    · by_cases hlt2 : m < 0
      · right
        simp [hlt, hlt2]
      · left
        simp [hlt, hlt2]

/-- Witness for C2 with both price bounds supplied. -/
theorem C2_price_check_balanced_witness :
    Ecommerce.priceCheck
      (ctxSet (ctxSet emptyCtx "min_price" (.int 5)) "max_price" (.int 7)) =
      .ok ∨
    Ecommerce.priceCheck
      (ctxSet (ctxSet emptyCtx "min_price" (.int 5)) "max_price" (.int 7)) =
      .err .minMaxPrices :=
  C2_price_check_balanced _ (Or.inr ⟨5, 7, by rfl, by rfl⟩)
